import Mathlib

/-!
Verification of the chess-talker Game Move Annotation Pipeline.

This file shallowly embeds the pipeline of `pgn_to_JSON.py`,
`pgn_to_JSON_converter.py` and `pgn_data_extractor.py`: the analysis
client `analyze_with_stockfish_api`, the per-game replay/annotation loop
`process_game_moves_and_analyze`, the metadata extraction and the
orchestrator loop of `parse_pgn_and_generate_json` (including the
converter's pacing `if i % 2 == 0: time.sleep(60)`).

The external chess library (python-chess) is outside the pipeline: the
code only consumes `board.push(move)` (which may reject a move) and
`board.fen()`.  Those two operations are passed in as a `ChessLib`
capability, exactly the boundary the pipeline uses.  Likewise the HTTP
layer (`requests.get` + `response.json()`) is passed in as a `send`
function producing an `ApiResponse` and a `decode` function standing for
JSON parsing, matching the request/response contract the client consumes.
-/

/-- The error raised when the external move-application operation rejects
a move (python-chess raising from `board.push`). -/
inductive IllegalMoveError where
  | illegal
deriving DecidableEq, Repr

/-- Outcome of the single HTTP GET of `analyze_with_stockfish_api`:
either a `requests.exceptions.RequestException` (DNS failure, timeout,
or a non-2xx status surfaced by `raise_for_status`) carrying its
stringified cause, or a 2xx response carrying its body text. -/
inductive ApiResponse where
  | transportFailure (cause : String)
  | body (text : String)
deriving DecidableEq, Repr

/-- The four return sites of `analyze_with_stockfish_api`:
the parsed JSON payload `response.json()`, or one of the three error
dicts `{"error": "Request failed: e"}`, `{"error": "Empty response from
API"}`, `{"error": "Invalid JSON response"}`. -/
inductive ApiResult (α : Type) where
  | success (payload : α)
  | requestFailed (message : String)
  | emptyResponse
  | invalidJson
deriving DecidableEq, Repr

/-- Lines 18-19 of `pgn_to_JSON.py` (and lines 20-21 of the converter):
`if depth >= 16: depth = 15`.  The resulting value is the depth put into
the request parameters. -/
def effective_depth (depth : Int) : Int :=
  if depth ≥ 16 then 15 else depth

/-- Lines 28-41 of `pgn_to_JSON.py`: classification of the HTTP outcome.
A transport failure becomes the "Request failed" error dict; otherwise
an empty body (after `strip()`) becomes the "Empty response" error dict;
otherwise an unparseable body (`response.json()` raising `ValueError`,
modelled by `decode` returning `none`) becomes the "Invalid JSON" error
dict; otherwise the parsed payload is returned unmodified. -/
def classify_response (decode : String → Option α) : ApiResponse → ApiResult α
  | ApiResponse.transportFailure cause =>
      ApiResult.requestFailed ("Request failed: " ++ cause)
  | ApiResponse.body text =>
      if text.trim = "" then ApiResult.emptyResponse
      else
        match decode text with
        | some payload => ApiResult.success payload
        | none => ApiResult.invalidJson

/-- `analyze_with_stockfish_api(fen, depth)`: clamp the depth, issue one
synchronous GET with the fen and the effective depth, classify the
outcome. -/
def analyze_with_stockfish_api (send : String → Int → ApiResponse)
    (decode : String → Option α) (fen : String) (depth : Int) : ApiResult α :=
  classify_response decode (send fen (effective_depth depth))

/-- The two operations of the external chess library that the pipeline
consumes, over an opaque board-state type `β`: `board.push(move)`
(fallible: the external library may reject a move) and `board.fen()`. -/
structure ChessLib (β : Type) where
  push : β → String → Except IllegalMoveError β
  fen : β → String

/-- A parsed game as the pipeline sees it: the headers mapping
(`game.headers`, looked up with `.get(key, default)`), the initial board
(`game.board()`), and the mainline move list in UCI encoding
(`game.mainline_moves()`, each recorded via `move.uci()`). -/
structure Game (β : Type) where
  headers : List (String × String)
  initialBoard : β
  moves : List String
deriving DecidableEq

/-- One entry of the `game_data` list built by
`process_game_moves_and_analyze`: the dict
`{"Move Number": ..., "Player": ..., "Move": ..., "FEN": ...,
"Stockfish Analysis": ...}`. -/
structure MoveRecord (α : Type) where
  moveNumber : Nat
  player : String
  move : String
  fen : String
  analysis : ApiResult α
deriving DecidableEq, Repr

/-- The loop body of `process_game_moves_and_analyze` (lines 53-80 of
`pgn_to_JSON.py`), with the mutable `board` and `move_counter` threaded
explicitly.  Each iteration pushes the move (an exception from the
external library propagates, discarding the records accumulated so far),
increments the counter, labels the player by counter parity, takes the
resulting fen, calls the analyzer at depth 15 and appends the record. -/
def process_moves_from (lib : ChessLib β) (analyzer : String → Int → ApiResult α)
    (board : β) (counter : Nat) :
    List String → Except IllegalMoveError (List (MoveRecord α))
  | [] => Except.ok []
  | m :: rest =>
    match lib.push board m with
    | Except.error e => Except.error e
    | Except.ok b =>
      let n := counter + 1
      let currentFen := lib.fen b
      let record : MoveRecord α :=
        { moveNumber := n
          player := if n % 2 = 1 then "White" else "Black"
          move := m
          fen := currentFen
          analysis := analyzer currentFen 15 }
      match process_moves_from lib analyzer b n rest with
      | Except.error e => Except.error e
      | Except.ok tail => Except.ok (record :: tail)

/-- `process_game_moves_and_analyze(game)`: run the loop over the game's
mainline moves, starting from the game's initial board with
`move_counter = 0`. -/
def process_game_moves_and_analyze (lib : ChessLib β)
    (analyzer : String → Int → ApiResult α) (g : Game β) :
    Except IllegalMoveError (List (MoveRecord α)) :=
  process_moves_from lib analyzer g.initialBoard 0 g.moves

/-- The metadata dict of `parse_pgn_and_generate_json` in
`pgn_to_JSON.py` (lines 105-118): twelve `game.headers.get(key, default)`
lookups with per-key "Unknown ..." defaults. -/
def game_metadata (hs : List (String × String)) : List (String × String) :=
  [("Event", (hs.lookup "Event").getD "Unknown Event"),
   ("White", (hs.lookup "White").getD "Unknown Player"),
   ("Black", (hs.lookup "Black").getD "Unknown Player"),
   ("Result", (hs.lookup "Result").getD "Unknown Result"),
   ("WhiteElo", (hs.lookup "WhiteElo").getD "Unknown Elo"),
   ("BlackElo", (hs.lookup "BlackElo").getD "Unknown Elo"),
   ("WhiteRatingDiff", (hs.lookup "WhiteRatingDiff").getD "Unknown Diff"),
   ("BlackRatingDiff", (hs.lookup "BlackRatingDiff").getD "Unknown Diff"),
   ("ECO", (hs.lookup "ECO").getD "Unknown ECO"),
   ("Opening", (hs.lookup "Opening").getD "Unknown Opening"),
   ("Termination", (hs.lookup "Termination").getD "Unknown Termination"),
   ("Round", (hs.lookup "Round").getD "Unknown Round")]

/-- The recognized header keys with the `pgn_to_JSON.py` defaults, as a
key/placeholder schema for stating properties of `game_metadata`. -/
def metadata_defaults : List (String × String) :=
  [("Event", "Unknown Event"), ("White", "Unknown Player"),
   ("Black", "Unknown Player"), ("Result", "Unknown Result"),
   ("WhiteElo", "Unknown Elo"), ("BlackElo", "Unknown Elo"),
   ("WhiteRatingDiff", "Unknown Diff"), ("BlackRatingDiff", "Unknown Diff"),
   ("ECO", "Unknown ECO"), ("Opening", "Unknown Opening"),
   ("Termination", "Unknown Termination"), ("Round", "Unknown Round")]

/-- The metadata dict of `parse_pgn_and_generate_json` in
`pgn_to_JSON_converter.py` (lines 107-120): the same twelve keys, each
defaulting to the placeholder "?". -/
def game_metadata_conv (hs : List (String × String)) : List (String × String) :=
  [("Event", (hs.lookup "Event").getD "?"),
   ("White", (hs.lookup "White").getD "?"),
   ("Black", (hs.lookup "Black").getD "?"),
   ("Result", (hs.lookup "Result").getD "?"),
   ("WhiteElo", (hs.lookup "WhiteElo").getD "?"),
   ("BlackElo", (hs.lookup "BlackElo").getD "?"),
   ("WhiteRatingDiff", (hs.lookup "WhiteRatingDiff").getD "?"),
   ("BlackRatingDiff", (hs.lookup "BlackRatingDiff").getD "?"),
   ("ECO", (hs.lookup "ECO").getD "?"),
   ("Opening", (hs.lookup "Opening").getD "?"),
   ("Termination", (hs.lookup "Termination").getD "?"),
   ("Round", (hs.lookup "Round").getD "?")]

/-- The per-game output dict `{"Metadata": ..., "Moves": ...}` written to
`processed_game{i}.json`. -/
structure GameData (α : Type) where
  metadata : List (String × String)
  moves : List (MoveRecord α)
deriving DecidableEq, Repr

/-- One game of `parse_pgn_and_generate_json` in `pgn_to_JSON.py`
(lines 104-131): extract the metadata, process the moves, combine. -/
def build_game_record (lib : ChessLib β) (analyzer : String → Int → ApiResult α)
    (g : Game β) : Except IllegalMoveError (GameData α) :=
  match process_game_moves_and_analyze lib analyzer g with
  | Except.error e => Except.error e
  | Except.ok ms => Except.ok { metadata := game_metadata g.headers, moves := ms }

/-- The orchestrator loop of `parse_pgn_and_generate_json` in
`pgn_to_JSON.py` (lines 94-133), over an explicit list of file indices
(the source iterates `range(1, 21)`).  `readGame i` models
`chess.pgn.read_game` on `game{i}.pgn` (`none` when the file parses to
no game, which the loop skips with `continue`).  The first component is
the list of JSON files written, in order; the second is the uncaught
exception, if any.  There is no `try/except` around the per-game body,
so an `IllegalMoveError` escaping `process_game_moves_and_analyze`
terminates the whole loop: the failing game writes nothing and the
remaining indices are never visited, while files already written
persist. -/
def parse_pgn_and_generate_json (lib : ChessLib β)
    (analyzer : String → Int → ApiResult α) (readGame : Nat → Option (Game β)) :
    List Nat → List (Nat × GameData α) × Option IllegalMoveError
  | [] => ([], none)
  | i :: rest =>
    match readGame i with
    | none => parse_pgn_and_generate_json lib analyzer readGame rest
    | some g =>
      match build_game_record lib analyzer g with
      | Except.error e => ([], some e)
      | Except.ok gd =>
        let next := parse_pgn_and_generate_json lib analyzer readGame rest
        ((i, gd) :: next.1, next.2)

/-- The pacing behaviour of the converter's loop
(`pgn_to_JSON_converter.py` lines 96-141): for each file index `i`, if
the game is present it is processed (incrementing the completed count),
and then `if i % 2 == 0: time.sleep(60)`.  When the game is absent the
`continue` also skips the sleep.  Returns the final completed count and
the suspension events, each recording the file index at which the sleep
fired together with the completed count at that moment. -/
def converter_pacing_events (present : Nat → Bool) :
    List Nat → Nat → Nat × List (Nat × Nat)
  | [], completed => (completed, [])
  | i :: rest, completed =>
    if present i then
      let done := completed + 1
      let next := converter_pacing_events present rest done
      if i % 2 = 0 then (next.1, (i, done) :: next.2) else (next.1, next.2)
    else converter_pacing_events present rest completed

/-- The file indices the converter iterates: `range(6, 21)`. -/
def converter_file_indices : List Nat := List.range' 6 15

/-- Whether the replay of one game ran to completion without the
external library rejecting a move. -/
def replay_ok : Except IllegalMoveError (List (MoveRecord α)) → Bool
  | Except.ok _ => true
  | Except.error _ => false

/-- Concrete stand-in for the external chess library: board states are
naturals, every push succeeds, the fen is the decimal of the state. -/
def libNat : ChessLib Nat :=
  { push := fun b _ => Except.ok (b + 1), fen := fun b => toString b }

/-- Concrete deterministic analyzer stub: succeeds with the fen itself. -/
def echoAnalyzer : String → Int → ApiResult String :=
  fun f _ => ApiResult.success f

/-- A concrete three-move game over `libNat`. -/
def sampleGame : Game Nat :=
  { headers := [("Event", "Casual game")]
    initialBoard := 0
    moves := ["e2e4", "e7e5", "g1f3"] }

/-- The records `process_game_moves_and_analyze` produces for
`sampleGame` over `libNat` and `echoAnalyzer`. -/
def sampleRecords : List (MoveRecord String) :=
  [{ moveNumber := 1, player := "White", move := "e2e4", fen := "1",
     analysis := ApiResult.success "1" },
   { moveNumber := 2, player := "Black", move := "e7e5", fen := "2",
     analysis := ApiResult.success "2" },
   { moveNumber := 3, player := "White", move := "g1f3", fen := "3",
     analysis := ApiResult.success "3" }]

/-- Chess library whose move application rejects the encoding "xx99"
and accepts everything else. -/
def libReject : ChessLib Nat :=
  { push := fun b m =>
      if m = "xx99" then Except.error IllegalMoveError.illegal
      else Except.ok (b + 1)
    fen := fun b => toString b }

/-- Analyzer stub returning a fixed error payload. -/
def constAnalyzer : String → Int → ApiResult String :=
  fun _ _ => ApiResult.emptyResponse

/-- A game whose single move is rejected by `libReject`. -/
def corruptGame : Game Nat :=
  { headers := [], initialBoard := 0, moves := ["xx99"] }

/-- A game `libReject` replays without error. -/
def legalGame : Game Nat :=
  { headers := [], initialBoard := 0, moves := ["e2e4"] }

/-- A two-file input: file 1 holds the corrupt game, file 2 the legal
one. -/
def readGames : Nat → Option (Game Nat)
  | 1 => some corruptGame
  | 2 => some legalGame
  | _ => none

/-- HTTP stub always answering 2xx with body "ok". -/
def sendOkBody : String → Int → ApiResponse :=
  fun _ _ => ApiResponse.body "ok"

/-- JSON decoding stub that succeeds with the body itself. -/
def decodeEcho : String → Option String := some

/-- Characterization of a successful run of the
`process_game_moves_and_analyze` loop from an arbitrary counter value:
the recorded ply numbers are consecutive from `counter + 1`, the moves
are the input moves in order, the player label is determined by ply
parity, and each analysis field is the analyzer's output on the
record's fen at depth 15. -/
theorem process_moves_from_fields (lib : ChessLib β)
    (analyzer : String → Int → ApiResult α) :
    ∀ (moves : List String) (board : β) (counter : Nat)
      (records : List (MoveRecord α)),
      process_moves_from lib analyzer board counter moves = Except.ok records →
      records.map (fun r => r.moveNumber) = List.range' (counter + 1) moves.length ∧
      records.map (fun r => r.move) = moves ∧
      (∀ r ∈ records, r.player = (if r.moveNumber % 2 = 1 then "White" else "Black")) ∧
      (∀ r ∈ records, r.analysis = analyzer r.fen 15) := by
  intro moves
  induction moves with
  | nil =>
    intro board counter records h
    simp only [process_moves_from, Except.ok.injEq] at h
    subst h
    simp
  | cons m rest ih =>
    intro board counter records h
    unfold process_moves_from at h
    cases hpush : lib.push board m with
    | error e =>
      simp only [hpush] at h
      exact Except.noConfusion h
    | ok b =>
      simp only [hpush] at h
      cases hrec : process_moves_from lib analyzer b (counter + 1) rest with
      | error e₀ =>
        simp only [hrec] at h
        exact Except.noConfusion h
      | ok tail =>
        simp only [hrec, Except.ok.injEq] at h
        subst h
        obtain ⟨h1, h2, h3, h4⟩ := ih b (counter + 1) tail hrec
        refine ⟨?_, ?_, ?_, ?_⟩
        · simpa [List.range'_succ] using h1
        · simpa using h2
        · intro r hr
          rcases List.mem_cons.mp hr with hr | hr
          · subst hr; rfl
          · exact h3 r hr
        · intro r hr
          rcases List.mem_cons.mp hr with hr | hr
          · subst hr; rfl
          · exact h4 r hr

/-- Whether the replay loop completes depends only on the library, the
board and the moves — never on the analyzer or the counter. -/
theorem process_moves_from_ok_independent (lib : ChessLib β)
    (a₁ : String → Int → ApiResult α) (a₂ : String → Int → ApiResult γ) :
    ∀ (moves : List String) (board : β) (c₁ c₂ : Nat),
      replay_ok (process_moves_from lib a₁ board c₁ moves) =
      replay_ok (process_moves_from lib a₂ board c₂ moves) := by
  intro moves
  induction moves with
  | nil => intro board c₁ c₂; rfl
  | cons m rest ih =>
    intro board c₁ c₂
    simp only [process_moves_from]
    cases hp : lib.push board m with
    | error e => rfl
    | ok b =>
      have hih := ih b (c₁ + 1) (c₂ + 1)
      cases h₁ : process_moves_from lib a₁ b (c₁ + 1) rest with
      | error e₁ =>
        cases h₂ : process_moves_from lib a₂ b (c₂ + 1) rest with
        | error e₂ => simp [replay_ok, h₁, h₂]
        | ok t₂ => rw [h₁, h₂] at hih; exact absurd hih (by simp [replay_ok])
      | ok t₁ =>
        cases h₂ : process_moves_from lib a₂ b (c₂ + 1) rest with
        | error e₂ => rw [h₁, h₂] at hih; exact absurd hih (by simp [replay_ok])
        | ok t₂ => simp [replay_ok, h₁, h₂]

/-- Claim C1: for every game whose move list contains N moves, a
completed run of `process_game_moves_and_analyze` produces exactly N
move records, one per input move in move order, whose "Move Number"
fields are exactly 1..N in strictly increasing order, with no merges
and no drops. -/
theorem claim_c1_ply_indices (lib : ChessLib β)
    (analyzer : String → Int → ApiResult α) (g : Game β)
    (records : List (MoveRecord α))
    (h : process_game_moves_and_analyze lib analyzer g = Except.ok records) :
    records.length = g.moves.length ∧
    records.map (fun r => r.moveNumber) = List.range' 1 g.moves.length ∧
    records.map (fun r => r.move) = g.moves := by
  obtain ⟨h1, h2, _, _⟩ :=
    process_moves_from_fields lib analyzer g.moves g.initialBoard 0 records h
  refine ⟨?_, h1, h2⟩
  have := congrArg List.length h2
  simpa using this

/-- Witness for C1 at the concrete three-move `sampleGame`. -/
theorem claim_c1_ply_indices_witness :
    process_game_moves_and_analyze libNat echoAnalyzer sampleGame =
      Except.ok sampleRecords ∧
    (sampleRecords.length = sampleGame.moves.length ∧
     sampleRecords.map (fun r => r.moveNumber) =
       List.range' 1 sampleGame.moves.length ∧
     sampleRecords.map (fun r => r.move) = sampleGame.moves) :=
  ⟨rfl, claim_c1_ply_indices libNat echoAnalyzer sampleGame sampleRecords rfl⟩

/-- Claim C2: in every completed run of `process_game_moves_and_analyze`
the recorded side for ply k is "White" when k is odd and "Black" when k
is even, and the ply numbers run 1..N, so the sides alternate strictly
starting with White at ply 1.  The statement quantifies over every
`ChessLib`, every initial board and every game — in particular over
games whose original header puts Black to move in the starting
position — because the code derives the label from `move_counter`
parity alone and never consults the board's side to move. -/
theorem claim_c2_side_alternation (lib : ChessLib β)
    (analyzer : String → Int → ApiResult α) (g : Game β)
    (records : List (MoveRecord α))
    (h : process_game_moves_and_analyze lib analyzer g = Except.ok records) :
    (∀ r ∈ records,
      r.player = (if r.moveNumber % 2 = 1 then "White" else "Black")) ∧
    records.map (fun r => r.moveNumber) = List.range' 1 g.moves.length := by
  obtain ⟨h1, _, h3, _⟩ :=
    process_moves_from_fields lib analyzer g.moves g.initialBoard 0 records h
  exact ⟨h3, h1⟩

/-- Witness for C2 at the concrete three-move `sampleGame`. -/
theorem claim_c2_side_alternation_witness :
    process_game_moves_and_analyze libNat echoAnalyzer sampleGame =
      Except.ok sampleRecords ∧
    ((∀ r ∈ sampleRecords,
       r.player = (if r.moveNumber % 2 = 1 then "White" else "Black")) ∧
     sampleRecords.map (fun r => r.moveNumber) =
       List.range' 1 sampleGame.moves.length) :=
  ⟨rfl, claim_c2_side_alternation libNat echoAnalyzer sampleGame sampleRecords rfl⟩

/-- Claim C6: with an analyzer stub that always returns the transport
failure payload, every record of a completed game carries that payload
in its analysis field, the game still completes with its full ply
count, and — since completion of the replay never depends on the
analyzer — a per-move analysis failure never aborts or truncates the
game's processing. -/
theorem claim_c6_transport_failure_isolation (lib : ChessLib β) (g : Game β)
    (msg : String) (analyzer : String → Int → ApiResult γ)
    (records : List (MoveRecord α))
    (h : process_game_moves_and_analyze lib
        (fun _ _ => ApiResult.requestFailed msg) g = Except.ok records) :
    records.length = g.moves.length ∧
    (∀ r ∈ records, r.analysis = ApiResult.requestFailed msg) ∧
    replay_ok (process_game_moves_and_analyze lib analyzer g) = true := by
  obtain ⟨h1, h2, _, h4⟩ :=
    process_moves_from_fields lib (fun _ _ => ApiResult.requestFailed msg)
      g.moves g.initialBoard 0 records h
  refine ⟨?_, h4, ?_⟩
  · have := congrArg List.length h2
    simpa using this
  · have hind :=
      process_moves_from_ok_independent lib
        (fun _ _ => (ApiResult.requestFailed msg : ApiResult α)) analyzer
        g.moves g.initialBoard 0 0
    unfold process_game_moves_and_analyze
    rw [← hind]
    unfold process_game_moves_and_analyze at h
    rw [h]
    rfl

/-- The records produced for `sampleGame` when every analysis call
answers with the fixed transport-failure payload. -/
def failRecords : List (MoveRecord String) :=
  [{ moveNumber := 1, player := "White", move := "e2e4", fen := "1",
     analysis := ApiResult.requestFailed "Request failed: timeout" },
   { moveNumber := 2, player := "Black", move := "e7e5", fen := "2",
     analysis := ApiResult.requestFailed "Request failed: timeout" },
   { moveNumber := 3, player := "White", move := "g1f3", fen := "3",
     analysis := ApiResult.requestFailed "Request failed: timeout" }]

/-- Witness for C6: the stub analyzer on `sampleGame`. -/
theorem claim_c6_transport_failure_isolation_witness :
    process_game_moves_and_analyze libNat
      (fun _ _ => (ApiResult.requestFailed "Request failed: timeout" :
        ApiResult String)) sampleGame = Except.ok failRecords ∧
    (failRecords.length = sampleGame.moves.length ∧
     (∀ r ∈ failRecords,
        r.analysis = ApiResult.requestFailed "Request failed: timeout") ∧
     replay_ok (process_game_moves_and_analyze libNat echoAnalyzer sampleGame)
       = true) :=
  ⟨rfl,
   claim_c6_transport_failure_isolation libNat sampleGame
     "Request failed: timeout" echoAnalyzer failRecords rfl⟩

/-- Claim C9: the per-game pipeline is deterministic — with a fixed
library, the same pure analyzer and the same immutable game, two runs of
metadata extraction plus move processing produce identical
`GameData` (identical metadata and identical record sequences). -/
theorem claim_c9_deterministic (lib : ChessLib β)
    (a₁ a₂ : String → Int → ApiResult α) (g₁ g₂ : Game β)
    (ha : a₁ = a₂) (hg : g₁ = g₂) :
    build_game_record lib a₁ g₁ = build_game_record lib a₂ g₂ := by
  subst ha
  subst hg
  rfl

/-- Witness for C9 at the concrete `sampleGame`. -/
theorem claim_c9_deterministic_witness :
    echoAnalyzer = echoAnalyzer ∧ sampleGame = sampleGame ∧
    build_game_record libNat echoAnalyzer sampleGame =
      build_game_record libNat echoAnalyzer sampleGame :=
  ⟨rfl, rfl,
   claim_c9_deterministic libNat echoAnalyzer echoAnalyzer
     sampleGame sampleGame rfl rfl⟩

/-- Counterexample to C3 as stated: over `libReject`, the game in file 1
has its only move rejected, so the orchestrator loop raises; the run's
output is empty and carries the uncaught error, and file 2 is never
visited — even though file 2's game, processed on its own, completes
with one record.  Processing therefore does not continue with the next
game. -/
theorem claim_c3_counterexample :
    parse_pgn_and_generate_json libReject constAnalyzer readGames [1, 2] =
      ([], some IllegalMoveError.illegal) ∧
    build_game_record libReject constAnalyzer legalGame =
      Except.ok
        { metadata := game_metadata []
          moves := [{ moveNumber := 1, player := "White", move := "e2e4",
                      fen := "1", analysis := ApiResult.emptyResponse }] } :=
  ⟨rfl, rfl⟩

/-- Claim C3 amended: if the move-application operation rejects a move of
the game at the head of the remaining file list, the `IllegalMoveError`
propagates (not recovered) out of replay and out of the orchestrator:
zero records from that game appear in the output, and the remaining
games are not processed — the loop has no per-game exception handler, so
the run terminates instead of continuing with the next game. -/
theorem claim_c3_abort_propagates (lib : ChessLib β)
    (analyzer : String → Int → ApiResult α)
    (readGame : Nat → Option (Game β)) (i : Nat) (rest : List Nat)
    (g : Game β) (e : IllegalMoveError)
    (hg : readGame i = some g)
    (hfail : process_game_moves_and_analyze lib analyzer g = Except.error e) :
    parse_pgn_and_generate_json lib analyzer readGame (i :: rest) =
      ([], some e) := by
  simp only [parse_pgn_and_generate_json, hg, build_game_record, hfail]

/-- Witness for the amended C3 at the concrete two-file input. -/
theorem claim_c3_abort_propagates_witness :
    readGames 1 = some corruptGame ∧
    process_game_moves_and_analyze libReject constAnalyzer corruptGame =
      Except.error IllegalMoveError.illegal ∧
    parse_pgn_and_generate_json libReject constAnalyzer readGames [1, 2] =
      ([], some IllegalMoveError.illegal) :=
  ⟨rfl, rfl,
   claim_c3_abort_propagates libReject constAnalyzer readGames 1 [2]
     corruptGame IllegalMoveError.illegal rfl rfl⟩

/-- Claim C4: for every position and depth the analysis client returns
exactly one of four mutually exclusive results, in this order of
precedence: a transport failure yields the "Request failed" error
payload carrying the stringified cause; otherwise an
empty-after-trimming body yields the empty-response error payload;
otherwise an unparseable body yields the malformed-response error
payload; otherwise the parsed payload is passed through unmodified. -/
theorem claim_c4_response_precedence (send : String → Int → ApiResponse)
    (decode : String → Option α) (fen : String) (depth : Int) :
    (∀ cause, send fen (effective_depth depth) =
        ApiResponse.transportFailure cause →
      analyze_with_stockfish_api send decode fen depth =
        ApiResult.requestFailed ("Request failed: " ++ cause)) ∧
    (∀ text, send fen (effective_depth depth) = ApiResponse.body text →
      text.trim = "" →
      analyze_with_stockfish_api send decode fen depth =
        ApiResult.emptyResponse) ∧
    (∀ text, send fen (effective_depth depth) = ApiResponse.body text →
      text.trim ≠ "" → decode text = none →
      analyze_with_stockfish_api send decode fen depth =
        ApiResult.invalidJson) ∧
    (∀ text payload, send fen (effective_depth depth) = ApiResponse.body text →
      text.trim ≠ "" → decode text = some payload →
      analyze_with_stockfish_api send decode fen depth =
        ApiResult.success payload) := by
  refine ⟨?_, ?_, ?_, ?_⟩
  · intro cause hsend
    simp [analyze_with_stockfish_api, classify_response, hsend]
  · intro text hsend htrim
    simp [analyze_with_stockfish_api, classify_response, hsend, htrim]
  · intro text hsend htrim hdec
    simp [analyze_with_stockfish_api, classify_response, hsend, htrim, hdec]
  · intro text payload hsend htrim hdec
    simp [analyze_with_stockfish_api, classify_response, hsend, htrim, hdec]

/-- HTTP stub always raising a transport failure with cause "timeout". -/
def sendFailStub : String → Int → ApiResponse :=
  fun _ _ => ApiResponse.transportFailure "timeout"

/-- Witness for C4: a transport failure is normalized to the
"Request failed" error payload carrying its stringified cause. -/
theorem claim_c4_response_precedence_witness :
    sendFailStub "fen0" (effective_depth 12) =
      ApiResponse.transportFailure "timeout" ∧
    analyze_with_stockfish_api sendFailStub decodeEcho "fen0" 12 =
      ApiResult.requestFailed ("Request failed: " ++ "timeout") :=
  ⟨rfl,
   (claim_c4_response_precedence sendFailStub decodeEcho "fen0" 12).1
     "timeout" rfl⟩

/-- Claim C5: requested depths 16, 20 and 1000 are all clamped to an
effective depth of 15, requested depth 10 stays 10, and in general any
requested depth ≥ 16 makes the client issue its single request at
depth 15. -/
theorem claim_c5_depth_clamped_to_15 :
    (effective_depth 16 = 15 ∧ effective_depth 20 = 15 ∧
     effective_depth 1000 = 15 ∧ effective_depth 10 = 10) ∧
    ∀ (α : Type) (send : String → Int → ApiResponse)
      (decode : String → Option α) (fen : String) (d : Int), 16 ≤ d →
      analyze_with_stockfish_api send decode fen d =
        classify_response decode (send fen 15) := by
  refine ⟨by decide, ?_⟩
  intro α send decode fen d hd
  unfold analyze_with_stockfish_api effective_depth
  rw [if_pos hd]

/-- Witness for C5 at requested depth 20. -/
theorem claim_c5_depth_clamped_to_15_witness :
    (16 : Int) ≤ 20 ∧
    analyze_with_stockfish_api sendOkBody decodeEcho "fen1" 20 =
      classify_response decodeEcho (sendOkBody "fen1" 15) :=
  ⟨by decide,
   claim_c5_depth_clamped_to_15.2 String sendOkBody decodeEcho "fen1" 20
     (by decide)⟩

/-- Claim C10: clamping has no lower bound — every requested depth
strictly below 16, including 0 and negative values, is sent to the
service unmodified; nothing rejects, raises on, or clamps up a low
depth. -/
theorem claim_c10_no_lower_clamp (d : Int) (hd : d < 16) :
    effective_depth d = d ∧
    ∀ (α : Type) (send : String → Int → ApiResponse)
      (decode : String → Option α) (fen : String),
      analyze_with_stockfish_api send decode fen d =
        classify_response decode (send fen d) := by
  have heff : effective_depth d = d := by
    unfold effective_depth
    rw [if_neg (by omega)]
  refine ⟨heff, ?_⟩
  intro α send decode fen
  unfold analyze_with_stockfish_api
  rw [heff]

/-- Witness for C10 at the negative requested depth -7. -/
theorem claim_c10_no_lower_clamp_witness :
    (-7 : Int) < 16 ∧
    (effective_depth (-7) = -7 ∧
     analyze_with_stockfish_api sendOkBody decodeEcho "fen2" (-7) =
       classify_response decodeEcho (sendOkBody "fen2" (-7))) :=
  ⟨by decide,
   (claim_c10_no_lower_clamp (-7) (by decide)).1,
   (claim_c10_no_lower_clamp (-7) (by decide)).2 String sendOkBody decodeEcho
     "fen2"⟩

/-- Counterexample to C7 as stated: the converter's loop runs over file
indices 6..20 and tests `i % 2 == 0` on the file index, not on the
completed-game count.  Over its first five files (indices 6-10, all
present, hence five completed games) it suspends three times — at
completed counts 1, 3 and 5 — and in particular it suspends right after
the first completed game, whose completed count 1 is odd; it does not
suspend exactly twice after games 2 and 4. -/
theorem claim_c7_counterexample :
    converter_pacing_events (fun _ => true) (List.range' 6 5) 0 =
      (5, [(6, 1), (8, 3), (10, 5)]) ∧
    (converter_pacing_events (fun _ => true) (List.range' 6 5) 0).2.map
      Prod.snd ≠ [2, 4] := by
  decide

/-- Claim C7 amended: the converter suspends processing for its fixed
interval exactly when the just-processed game's file index is even — the
completed-game count plays no role.  Every suspension event sits at a
present, even file index of the input list, and conversely every
present, even file index triggers a suspension; since the loop starts at
file 6, its first five completed games (when all files are present)
yield suspensions after completed games 1, 3 and 5. -/
theorem claim_c7_index_parity (present : Nat → Bool) (indices : List Nat)
    (c : Nat) :
    (∀ p ∈ (converter_pacing_events present indices c).2,
      p.1 % 2 = 0 ∧ present p.1 = true ∧ p.1 ∈ indices) ∧
    (∀ i ∈ indices, present i = true → i % 2 = 0 →
      ∃ n, (i, n) ∈ (converter_pacing_events present indices c).2) := by
  induction indices generalizing c with
  | nil => simp [converter_pacing_events]
  | cons i rest ih =>
    constructor
    · intro p hp
      simp only [converter_pacing_events] at hp
      by_cases hpres : present i
      · rw [if_pos hpres] at hp
        by_cases heven : i % 2 = 0
        · rw [if_pos heven] at hp
          rcases List.mem_cons.mp hp with hp | hp
          · subst hp
            exact ⟨heven, hpres, List.mem_cons_self i rest⟩
          · obtain ⟨h1, h2, h3⟩ := (ih (c + 1)).1 p hp
            exact ⟨h1, h2, List.mem_cons_of_mem i h3⟩
        · rw [if_neg heven] at hp
          obtain ⟨h1, h2, h3⟩ := (ih (c + 1)).1 p hp
          exact ⟨h1, h2, List.mem_cons_of_mem i h3⟩
      · rw [if_neg hpres] at hp
        obtain ⟨h1, h2, h3⟩ := (ih c).1 p hp
        exact ⟨h1, h2, List.mem_cons_of_mem i h3⟩
    · intro j hj hjpres hjeven
      simp only [converter_pacing_events]
      rcases List.mem_cons.mp hj with hj | hj
      · subst hj
        rw [if_pos hjpres, if_pos hjeven]
        exact ⟨c + 1, List.mem_cons_self _ _⟩
      · by_cases hpres : present i
        · rw [if_pos hpres]
          obtain ⟨n, hn⟩ := (ih (c + 1)).2 j hj hjpres hjeven
          by_cases heven : i % 2 = 0
          · rw [if_pos heven]
            exact ⟨n, List.mem_cons_of_mem _ hn⟩
          · rw [if_neg heven]
            exact ⟨n, hn⟩
        · rw [if_neg hpres]
          exact (ih c).2 j hj hjpres hjeven

/-- Witness for the amended C7: over files [6, 7] with both games
present, the sleep after file 6 is the suspension event (6, 1). -/
theorem claim_c7_index_parity_witness :
    (6, 1) ∈ (converter_pacing_events (fun _ => true) [6, 7] 0).2 ∧
    (6 % 2 = 0 ∧ (fun _ => true) 6 = true ∧ 6 ∈ [6, 7]) :=
  ⟨by decide,
   (claim_c7_index_parity (fun _ => true) [6, 7] 0).1 (6, 1) (by decide)⟩

/-- Claim C8: for every recognized header key, the emitted metadata of
both orchestrators maps that key to the header's value when present and
to the configured placeholder when absent — so no recognized key is
ever missing from the output metadata (`pgn_to_JSON.py` uses the
per-key "Unknown ..." placeholders, the converter uses "?"). -/
theorem claim_c8_metadata_defaults (hs : List (String × String))
    (key dflt : String) (hk : (key, dflt) ∈ metadata_defaults) :
    (game_metadata hs).lookup key = some ((hs.lookup key).getD dflt) ∧
    (game_metadata_conv hs).lookup key = some ((hs.lookup key).getD "?") := by
  fin_cases hk <;> exact ⟨rfl, rfl⟩

/-- Witness for C8: with no headers at all, the "Opening" key is still
emitted, mapped to each configuration's placeholder. -/
theorem claim_c8_metadata_defaults_witness :
    ("Opening", "Unknown Opening") ∈ metadata_defaults ∧
    ((game_metadata []).lookup "Opening" =
      some ((List.lookup "Opening" []).getD "Unknown Opening") ∧
     (game_metadata_conv []).lookup "Opening" =
      some ((List.lookup "Opening" []).getD "?")) :=
  ⟨by decide,
   claim_c8_metadata_defaults [] "Opening" "Unknown Opening" (by decide)⟩
